import Mathlib

/-!
Verification of the zh-science front end (shallow embedding).

This file embeds the pure logic of the client code of the zh-science
repository: the source-badge choosers, the admin moderation list updates,
the facet multi-select fetch effect, the statistics fetch with its
fallback requests, the CSV export helper, and the localStorage-backed
auth helpers.  Each embedded definition mirrors one TypeScript function;
theorems at the end of the file settle the specification claims.
-/

namespace ZhScience

/-! ### JavaScript string primitives -/

/-- Unicode simple lowercase restricted to the scripts this code base uses:
ASCII letters, the basic Cyrillic block and the extended Cyrillic letters
of Kazakh (models the JS toLowerCase calls on these strings). -/
def charLower (c : Char) : Char :=
  let n := c.toNat
  if 65 ≤ n ∧ n ≤ 90 then Char.ofNat (n + 32)
  else if 0x410 ≤ n ∧ n ≤ 0x42F then Char.ofNat (n + 32)
  else if 0x400 ≤ n ∧ n ≤ 0x40F then Char.ofNat (n + 80)
  else if 0x460 ≤ n ∧ n ≤ 0x52F ∧ n % 2 = 0 then Char.ofNat (n + 1)
  else c

/-- Model of the JS String.prototype.toLowerCase call. -/
def jsToLower (s : String) : String := String.mk (s.toList.map charLower)

/-- Model of the JS String.prototype.trim call: drops leading and
trailing whitespace. -/
def jsTrim (s : String) : String :=
  String.mk (((s.toList.dropWhile Char.isWhitespace).reverse.dropWhile
    Char.isWhitespace).reverse)

/-- First n characters of a string (model of the JS slice(0, n) on the
strings this code base renders). -/
def strTake (s : String) (n : Nat) : String := String.mk (s.toList.take n)

/-- Tests whether a string has a given character. -/
def strHasChar (s : String) (c : Char) : Bool := s.toList.contains c

/-- Model of the JS global replace of the double quote character by two
double quotes. -/
def escQuotes (s : String) : String :=
  String.mk (s.toList.flatMap fun c => if c = '"' then ['"', '"'] else [c])

/-- Tests whether the pattern occurs at the head of the text. -/
def headMatch : List Char → List Char → Bool
  | [], _ => true
  | _ :: _, [] => false
  | a :: as, b :: bs => a = b && headMatch as bs

/-- Tests whether the pattern occurs anywhere in the text. -/
def hasSubList : List Char → List Char → Bool
  | big, small =>
    match big with
    | [] => small.isEmpty
    | _ :: bs => headMatch small big || hasSubList bs small

/-- Model of the JS String.prototype.includes call. -/
def jsIncludes (s sub : String) : Bool := hasSubList s.toList sub.toList

/-- Model of the JS idiom (x or empty) for an optional string: null and
undefined collapse to the empty string. -/
def jsOrEmpty (o : Option String) : String := o.getD ""

/-- Model of JS string falsiness for an optional string: null, undefined
and the empty string are falsy. -/
def jsFalsy (o : Option String) : Bool :=
  match o with
  | none => true
  | some s => s = ""

/-- Model of the JS idiom (a or b) on an optional string with a string
default: a non-empty stored string wins, otherwise the default. -/
def jsOr (o : Option String) (d : String) : String :=
  match o with
  | none => d
  | some s => if s = "" then d else s

/-! ### Source badge choosers

The repository has two versions of the badge chooser named detectBadge:
the current one (component taking name, type, docType and uploadSource)
and a legacy one in SourceBadge.tsx taking only name and type. -/

/-- Input props of the current SourceBadge component. -/
structure BadgeIn where
  name : Option String := none
  type : Option String := none
  docType : Option String := none
  uploadSource : Option String := none

/-- Result of a badge chooser: label, css color classes, optional title. -/
structure Badge where
  label : String
  color : String
  title : Option String := none
deriving DecidableEq

/-- Embedding of detectBadge from the current SourceBadge component
(src/unnamed/part_000): the article branch first, then the
Scopus / WoS / thesis / no-source / journal chain. -/
def detectBadge (p : BadgeIn) : Badge :=
  if jsToLower (jsOrEmpty p.uploadSource) = "kokson" ∨
     jsToLower (jsOrEmpty p.uploadSource) = "article" then
    if jsTrim (jsOrEmpty p.docType) ≠ "" then
      { label :=
          if jsIncludes (jsToLower (jsTrim (jsOrEmpty p.docType))) "кксон" ∨
             jsIncludes (jsToLower (jsTrim (jsOrEmpty p.docType))) "бғсбк" then "ККСОН"
          else jsTrim (jsOrEmpty p.docType)
        color := "bg-emerald-100 text-emerald-700"
        title := some (jsTrim (jsOrEmpty p.docType)) }
    else
      { label := "Статья", color := "bg-emerald-100 text-emerald-700",
        title := some "Статья" }
  else if jsToLower (jsOrEmpty p.type) = "scopus" ∨
          jsIncludes (jsToLower (jsOrEmpty p.name)) "scopus" then
    { label := "Scopus", color := "bg-orange-100 text-orange-700" }
  else if jsToLower (jsOrEmpty p.type) = "wos" ∨
          jsIncludes (jsToLower (jsOrEmpty p.name)) "science" then
    { label := "WoS", color := "bg-blue-100 text-blue-700" }
  else if jsToLower (jsOrEmpty p.type) = "thesis" ∨
          jsIncludes (jsToLower (jsOrEmpty p.name)) "диссер" then
    { label := "Диссертации", color := "bg-purple-100 text-purple-700" }
  else if jsFalsy p.name then
    { label := "Без источника", color := "bg-gray-100 text-gray-700" }
  else
    { label := "Журнал", color := "bg-gray-100 text-gray-700" }

/-- Embedding of detectBadge from the legacy SourceBadge.tsx component:
same chain but with a КОКСОН branch between the WoS and thesis checks
and no article branch. -/
def detectBadgeLegacy (name type : Option String) : Badge :=
  if jsToLower (jsOrEmpty type) = "scopus" ∨
     jsIncludes (jsToLower (jsOrEmpty name)) "scopus" then
    { label := "Scopus", color := "bg-orange-100 text-orange-700" }
  else if jsToLower (jsOrEmpty type) = "wos" ∨
          jsIncludes (jsToLower (jsOrEmpty name)) "science" then
    { label := "WoS", color := "bg-blue-100 text-blue-700" }
  else if jsIncludes (jsToLower (jsOrEmpty type)) "кокс" ∨
          jsIncludes (jsToLower (jsOrEmpty name)) "коксон" ∨
          jsToLower (jsOrEmpty type) = "koks" ∨
          jsToLower (jsOrEmpty type) = "koksоn" then
    { label := "КОКСОН", color := "bg-emerald-100 text-emerald-700" }
  else if jsToLower (jsOrEmpty type) = "thesis" ∨
          jsIncludes (jsToLower (jsOrEmpty name)) "диссер" then
    { label := "Диссертации", color := "bg-purple-100 text-purple-700" }
  else if jsFalsy name then
    { label := "Без источника", color := "bg-gray-100 text-gray-700" }
  else
    { label := "Журнал", color := "bg-gray-100 text-gray-700" }

/-- Written from the words of the specification claim: the label chosen
for a source name and type by the precedence
Scopus, WoS, thesis, absent-or-empty name, journal. -/
def labelSpec (name type : Option String) : String :=
  if jsToLower (jsOrEmpty type) = "scopus" ∨
     jsIncludes (jsToLower (jsOrEmpty name)) "scopus" then "Scopus"
  else if jsToLower (jsOrEmpty type) = "wos" ∨
          jsIncludes (jsToLower (jsOrEmpty name)) "science" then "WoS"
  else if jsToLower (jsOrEmpty type) = "thesis" ∨
          jsIncludes (jsToLower (jsOrEmpty name)) "диссер" then "Диссертации"
  else if jsFalsy name then "Без источника"
  else "Журнал"

/-- Written from the amended claim: the same precedence with the legacy
КОКСОН branch inserted between the WoS and thesis checks. -/
def labelSpecLegacy (name type : Option String) : String :=
  if jsToLower (jsOrEmpty type) = "scopus" ∨
     jsIncludes (jsToLower (jsOrEmpty name)) "scopus" then "Scopus"
  else if jsToLower (jsOrEmpty type) = "wos" ∨
          jsIncludes (jsToLower (jsOrEmpty name)) "science" then "WoS"
  else if jsIncludes (jsToLower (jsOrEmpty type)) "кокс" ∨
          jsIncludes (jsToLower (jsOrEmpty name)) "коксон" ∨
          jsToLower (jsOrEmpty type) = "koks" ∨
          jsToLower (jsOrEmpty type) = "koksоn" then "КОКСОН"
  else if jsToLower (jsOrEmpty type) = "thesis" ∨
          jsIncludes (jsToLower (jsOrEmpty name)) "диссер" then "Диссертации"
  else if jsFalsy name then "Без источника"
  else "Журнал"

/-- Embedding of the render step of the current SourceBadge component:
the full string is the badge title when present (JS or-idiom), the
rendered text truncates it to 12 characters plus an ellipsis, and the
full string is kept as the title attribute.  Returns (text, title). -/
def renderSourceBadge (p : BadgeIn) : String × String :=
  ( if (jsOr (detectBadge p).title (detectBadge p).label).length > 12 then
      strTake (jsOr (detectBadge p).title (detectBadge p).label) 12 ++ "…"
    else jsOr (detectBadge p).title (detectBadge p).label
  , jsOr (detectBadge p).title (detectBadge p).label )

/-! ### Admin moderation list (AdminPage in the admin panel page)

The publication rows as typed on the client, and the local list updates
performed after a successful approve or reject call. -/

/-- Author row as typed on the client. -/
structure Author where
  id : Int
  display_name : String
deriving DecidableEq

/-- Source row as typed on the client. -/
structure Source where
  id : Int
  name : Option String
deriving DecidableEq

/-- Publication row as typed on the client (numbers modelled as Int). -/
structure Publication where
  id : Int
  year : Int
  title : String
  doi : Option String := none
  scopus_url : Option String := none
  pdf_url : Option String := none
  citations_count : Int
  quartile : Option String := none
  percentile_2024 : Option Int := none
  source : Option Source := none
  authors : List Author
  status : String
  note : Option String := none
deriving DecidableEq

/-- Embedding of the local state update after a successful approve call:
setItems maps over the list and rewrites the publication with the given
id to status approved with a cleared note. -/
def applyApprove (items : List Publication) (pubId : Int) : List Publication :=
  items.map fun p =>
    if p.id = pubId then { p with status := "approved", note := none } else p

/-- Embedding of the local state update after a successful reject call:
the targeted publication gets status rejected and the entered note, with
the JS or-null idiom turning an empty note into null. -/
def applyReject (items : List Publication) (pubId : Int) (noteTxt : String) :
    List Publication :=
  items.map fun p =>
    if p.id = pubId then
      { p with status := "rejected",
               note := if noteTxt = "" then none else some noteTxt }
    else p

/-- The status filter union type of the admin page:
pending, approved, rejected, or the empty string meaning no filter. -/
inductive StatusFilter
  | pending
  | approved
  | rejected
  | noFilter
deriving DecidableEq

/-- String carried by each status filter value. -/
def statusFilterStr : StatusFilter → String
  | .pending => "pending"
  | .approved => "approved"
  | .rejected => "rejected"
  | .noFilter => ""

/-- The publication statuses of the data model. -/
def allowedStatuses : List String := ["pending", "approved", "rejected"]

/-! ### Facet multi-select fetch effect (FacetMultiSelect component)

The fetch effect keeps an active flag that its cleanup clears; the then,
catch and finally handlers all test the flag before touching state. -/

/-- Facet item as typed on the client. -/
structure FacetItem where
  id : Int
  name : String
  count : Int
deriving DecidableEq

/-- Component state touched by the facet fetch effect. -/
structure FacetState where
  items : List FacetItem
  error : String
  loading : Bool
deriving DecidableEq

/-- Outcome of one facet fetch: a parsed item list, or a failure
(network error or unparsable response body). -/
inductive FetchOutcome
  | success (data : List FacetItem)
  | failure
deriving DecidableEq

/-- Embedding of the response handlers of the facet fetch effect: when
the effect is still active, success stores the data, failure clears the
items and records the api_unreachable error, and finally clears the
loading flag; when the effect was cleaned up nothing happens. -/
def applyFetchOutcome (active : Bool) (o : FetchOutcome) (st : FacetState) :
    FacetState :=
  let st1 :=
    if active then
      match o with
      | .success d => { st with items := d }
      | .failure => { st with items := [], error := "api_unreachable" }
    else st
  if active then { st1 with loading := false } else st1

/-- Inline banner of the component: rendered exactly when the error state
is api_unreachable, with the API base interpolated. -/
def facetBanner (apiBase : String) (st : FacetState) : Option String :=
  if st.error = "api_unreachable" then
    some ("API недоступен. Проверьте, запущен ли сервер на " ++ apiBase ++ ".")
  else none

/-- Trace state of the facet fetch effect machine: the component state,
the query strings of the fetches issued so far (in order, the index
being the fetch id), and the id of the only effect whose active flag is
still set. -/
structure FMState where
  comp : FacetState
  fetches : List String
  activeId : Option Nat
deriving DecidableEq

/-- Events of the facet effect machine: the effect re-runs with a new
query string (its cleanup first clears the previous active flag), or a
response arrives for an earlier fetch. -/
inductive FEvent
  | newQs (qs : String)
  | response (id : Nat) (o : FetchOutcome)
deriving DecidableEq

/-- One step of the facet effect machine, mirroring the effect body:
a re-run sets loading, clears the error, issues a new fetch and makes it
the only active one; a response is applied through the handlers with the
active flag of its own effect. -/
def fstep (m : FMState) : FEvent → FMState
  | .newQs qs =>
    { comp := { m.comp with loading := true, error := "" }
      fetches := m.fetches ++ [qs]
      activeId := some m.fetches.length }
  | .response id o =>
    if m.activeId = some id then
      { m with comp := applyFetchOutcome true o m.comp }
    else
      { m with comp := applyFetchOutcome false o m.comp }

/-- Run the facet effect machine over a list of events. -/
def frun (m : FMState) (evs : List FEvent) : FMState := evs.foldl fstep m

/-- Initial machine state: empty items, no error, not loading, no fetch
issued yet. -/
def finit : FMState :=
  { comp := { items := [], error := "", loading := false }
    fetches := []
    activeId := none }

/-! ### Main search fetch (fetchData in the home page index.tsx)

The /search fetch has no debounce, no abort controller and no active
flag: every invocation issues a request at once, and every response
handler stores its payload when it arrives, whether or not a newer
request has been issued since. -/

/-- Source row of a search result as typed on the client. -/
structure SourceOut where
  id : Int
  name : String
  type : Option String := none
  issn : Option String := none
  sjr_quartile : Option String := none
deriving DecidableEq

/-- Publication row of a search result as typed on the client. -/
structure PublicationOut where
  id : Int
  year : Int
  title : String
  doi : Option String := none
  scopus_url : Option String := none
  pdf_url : Option String := none
  citations_count : Int
  quartile : Option String := none
  percentile_2024 : Option Int := none
  source : Option SourceOut := none
  authors : List Author
deriving DecidableEq

/-- Paging metadata of a search response. -/
structure SearchMeta where
  page : Int
  per_page : Int
  total : Int
  total_pages : Int
deriving DecidableEq

/-- Body of a /search response. -/
structure SearchResponse where
  meta : SearchMeta
  items : List PublicationOut
deriving DecidableEq

/-- Trace state of the home page search effect: the stored response, the
loading flag, and the query strings of the /search requests issued so
far (in order, the index being the request id). -/
structure SMState where
  data : Option SearchResponse
  loading : Bool
  fetches : List String
deriving DecidableEq

/-- Events of the search effect: fetchData runs (an effect or a focus
refresh), or a response to an earlier request arrives. -/
inductive SEvent
  | sfetch (qs : String)
  | sresponse (id : Nat) (json : SearchResponse)
deriving DecidableEq

/-- One step of the search effect, mirroring fetchData: an invocation
sets loading and issues the request; a response stores its payload and
clears loading unconditionally, because fetchData keeps no active flag
and no abort controller, so the id of the request is never consulted. -/
def sstep (m : SMState) : SEvent → SMState
  | .sfetch qs => { m with loading := true, fetches := m.fetches ++ [qs] }
  | .sresponse _ json => { m with data := some json, loading := false }

/-- Run the search effect machine over a list of events. -/
def srun (m : SMState) (evs : List SEvent) : SMState := evs.foldl sstep m

/-- Initial search machine state: nothing stored, not loading. -/
def sinit : SMState := { data := none, loading := false, fetches := [] }

/-! ### CSV export helper (toCSV in the statistics page) -/

/-- A row record: the cell value at a header name, with none standing
for null or undefined (other values arrive already stringified). -/
def CSVRow := String → Option String

/-- Embedding of the esc helper inside toCSV: null and undefined become
the empty string, and a cell containing a double quote, comma or newline
is wrapped in double quotes with inner double quotes doubled. -/
def escCSV (v : Option String) : String :=
  let s := v.getD ""
  if strHasChar s '"' ∨ strHasChar s ',' ∨ strHasChar s '\n' then
    "\"" ++ escQuotes s ++ "\""
  else s

/-- Embedding of toCSV: the joined header line, a newline, then the rows
joined by newlines, each row being its escaped cells joined by commas. -/
def toCSV (rows : List CSVRow) (headers : List String) : String :=
  String.intercalate "," headers ++ "\n" ++
    String.intercalate "\n"
      (rows.map fun r => String.intercalate "," (headers.map fun h => escCSV (r h)))

/-! ### Auth helpers over localStorage (frontend/lib/auth.ts)

localStorage is modelled as a partial map from keys to strings; every
helper is a pure function of the store, with the clock and the random
uuid passed in as parameters. -/

/-- The localStorage model. -/
def Store := String → Option String

/-- Model of localStorage.setItem. -/
def setItem (k v : String) (s : Store) : Store :=
  fun k2 => if k2 = k then some v else s k2

/-- Model of localStorage.removeItem. -/
def removeItem (k : String) (s : Store) : Store :=
  fun k2 => if k2 = k then none else s k2

def CLIENT_ID_KEY : String := "clientId"
def ROLE_KEY : String := "role"
def TOKEN_KEY : String := "token"
def USER_ID_KEY : String := "user_id"
def LAST_ACTIVE_AT_KEY : String := "last_active_at"

/-- The 24 hour inactivity timeout in milliseconds. -/
def INACTIVITY_TIMEOUT_MS : Int := 24 * 60 * 60 * 1000

/-- The client role union type. -/
inductive Role
  | guest
  | user
  | admin
  | teacher
  | student
deriving DecidableEq

/-- The string stored for each role. -/
def roleStr : Role → String
  | .guest => "guest"
  | .user => "user"
  | .admin => "admin"
  | .teacher => "teacher"
  | .student => "student"

/-- Embedding of ensureClientId: writes a fresh client id only when none
is stored (the uuid the JS code draws at random is a parameter). -/
def ensureClientId (uuid : String) (s : Store) : Store :=
  if jsFalsy (s CLIENT_ID_KEY) then setItem CLIENT_ID_KEY uuid s else s

/-- Embedding of getRole: the stored role string when it is one of the
four real roles, guest otherwise. -/
def getRole (s : Store) : Role :=
  if s ROLE_KEY = some "user" then .user
  else if s ROLE_KEY = some "admin" then .admin
  else if s ROLE_KEY = some "teacher" then .teacher
  else if s ROLE_KEY = some "student" then .student
  else .guest

/-- Embedding of getToken: the stored token or the empty string. -/
def getToken (s : Store) : String := jsOrEmpty (s TOKEN_KEY)

/-- Embedding of setAuth: stores the role string, stores or removes the
token by JS truthiness, stores or removes the user id when the argument
is given, records the activity timestamp, and ensures a client id. -/
def setAuth (role : Role) (token : Option String)
    (userId : Option (Option Int)) (now : Int) (uuid : String) (s : Store) :
    Store :=
  let s1 := setItem ROLE_KEY (roleStr role) s
  let s2 := if jsFalsy token then removeItem TOKEN_KEY s1
            else setItem TOKEN_KEY (jsOrEmpty token) s1
  let s3 :=
    match userId with
    | none => s2
    | some none => removeItem USER_ID_KEY s2
    | some (some uid) => setItem USER_ID_KEY (toString uid) s2
  let s4 := setItem LAST_ACTIVE_AT_KEY (toString now) s3
  ensureClientId uuid s4

/-- Embedding of clearAuth: removes the token and user id and resets the
stored role to guest. -/
def clearAuth (s : Store) : Store :=
  setItem ROLE_KEY "guest" (removeItem USER_ID_KEY (removeItem TOKEN_KEY s))

/-- Parse a decimal integer string, the shape the activity timestamp is
written in; any other string models a non-finite JS Number. -/
def parseDigits : List Char → Option Nat
  | [] => none
  | cs => cs.foldl
      (fun acc c =>
        match acc with
        | none => none
        | some n => if c.isDigit then some (n * 10 + (c.toNat - 48)) else none)
      (some 0)

/-- Numeric value of a stored timestamp string, none when it does not
model a finite JS Number. -/
def jsFiniteNum (s : String) : Option Int :=
  match s.toList with
  | '-' :: rest => (parseDigits rest).map fun n => -(n : Int)
  | l => (parseDigits l).map fun n => (n : Int)

/-- Embedding of isSessionExpired: false when no activity timestamp is
stored or it is falsy or not finite, otherwise whether the elapsed time
strictly exceeds the inactivity timeout. -/
def isSessionExpired (now : Int) (s : Store) : Bool :=
  match s LAST_ACTIVE_AT_KEY with
  | none => false
  | some v =>
    if v = "" then false
    else
      match jsFiniteNum v with
      | none => false
      | some last => decide (now - last > INACTIVITY_TIMEOUT_MS)

/-- Embedding of maybeExpireSession: clears the auth state and returns
true exactly when the session is expired.  Returns (result, new store). -/
def maybeExpireSession (now : Int) (s : Store) : Bool × Store :=
  if isSessionExpired now s then (true, clearAuth s) else (false, s)

/-! ### Statistics fetch with fallbacks (fetchArticlesStats in stats.tsx)

The function issues two initial requests in parallel and then, when
responses are empty or not ok, a chain of fallback requests: the legacy
language-share endpoint, and the faculty summary re-queried with a
derived year, without the doc type, and without any filters.  The model
records every request issued, in order. -/

/-- Faculty summary row as typed on the client. -/
structure FacultyRow where
  faculty : String
  count : Int
deriving DecidableEq

/-- Language share row as typed on the client (numbers as Int). -/
structure LangRow where
  year : Int
  total : Int
  ru : Int
  kz : Int
  en : Int
  ru_pct : Int
  kz_pct : Int
  en_pct : Int
deriving DecidableEq

/-- Parsed body of a faculty summary response: an array or not. -/
inductive FacJson
  | farr (rows : List FacultyRow)
  | fnon
deriving DecidableEq

/-- Parsed body of a language share response: an array or not. -/
inductive LangJson
  | larr (rows : List LangRow)
  | lnon
deriving DecidableEq

/-- Outcome of one faculty summary fetch. -/
inductive FacOut
  | fthrow
  | fnotOk
  | fok (j : FacJson)
deriving DecidableEq

/-- Outcome of one language share fetch. -/
inductive LangOut
  | lthrow
  | lnotOk
  | lok (j : LangJson)
deriving DecidableEq

/-- A request issued by fetchArticlesStats: the faculty summary with its
year and doc type query params, or the language share (legacy flag for
the old articles-only endpoint) with its params. -/
inductive StatsReq
  | facSum (year : Option Int) (docType : Option String)
  | langShare (legacy : Bool) (year : Option Int) (docType : Option String)
deriving DecidableEq

/-- State updates applied when fetchArticlesStats completes normally. -/
structure ArticlesOutcome where
  facSummary : List FacultyRow
  langShare : List LangRow
  derivedYearUpd : Option (Option Int)
deriving DecidableEq

/-- One run of fetchArticlesStats: the requests issued in order, and the
state updates, none when the async function rejected. -/
structure ArticlesRun where
  requests : List StatsReq
  outcome : Option ArticlesOutcome
deriving DecidableEq

/-- JS emptiness test used on the parsed faculty body: not an array or
an empty array. -/
def facEmpty : FacJson → Bool
  | .farr rows => rows.isEmpty
  | .fnon => true

/-- JS emptiness test used on the parsed language body. -/
def langEmpty : LangJson → Bool
  | .larr rows => rows.isEmpty
  | .lnon => true

/-- Value of the JS conditional (res.ok ? await res.json() : []) for a
faculty fetch that did not throw. -/
def facValue : FacOut → FacJson
  | .fthrow => .farr []
  | .fnotOk => .farr []
  | .fok j => j

/-- Value of the JS conditional for a language fetch that did not throw. -/
def langValue : LangOut → LangJson
  | .lthrow => .larr []
  | .lnotOk => .larr []
  | .lok j => j

/-- Model of Math.max over the years of a non-empty row list, with the
JS (Number(r.year) or 0) coercion leaving an Int year unchanged. -/
def latestYear : List LangRow → Int
  | [] => 0
  | r :: rs => (rs.map fun x => x.year).foldl max r.year

/-- Tail of fetchArticlesStats after the derived-year step: the fallback
refetch of the faculty summary without the doc type, the ultimate
fallback without any filters (both in try/catch, keeping the previous
value unless the new body is a non-empty array), and the final state
updates. -/
def finishArticles (yearSel : Option Int) (docType : String)
    (ofac : Option Int → Option String → FacOut)
    (reqs : List StatsReq) (facArr : FacJson) (lshare : LangJson)
    (dY : Option (Option Int)) : ArticlesRun :=
  let step5 : List StatsReq × FacJson :=
    if facEmpty facArr ∧ docType ≠ "" then
      match ofac yearSel none with
      | .fthrow => ([.facSum yearSel none], facArr)
      | r5 =>
        ([.facSum yearSel none],
         if ¬ facEmpty (facValue r5) then facValue r5 else facArr)
    else ([], facArr)
  let step6 : List StatsReq × FacJson :=
    if facEmpty step5.2 ∧ yearSel = none ∧ docType ≠ "" then
      match ofac none none with
      | .fthrow => ([.facSum none none], step5.2)
      | r6 =>
        ([.facSum none none],
         if ¬ facEmpty (facValue r6) then facValue r6 else step5.2)
    else ([], step5.2)
  { requests := reqs ++ step5.1 ++ step6.1
    outcome := some
      { facSummary := match step6.2 with | .farr rows => rows | .fnon => []
        langShare := match lshare with | .larr rows => rows | .lnon => []
        derivedYearUpd := dY } }

/-- Embedding of fetchArticlesStats.  Parameters: the year filter (none
for the empty selection), the doc type filter (the empty string is
falsy), and the two fetch oracles giving the outcome of each faculty
summary and language share request. -/
def runArticlesStats (yearSel : Option Int) (docType : String)
    (ofac : Option Int → Option String → FacOut)
    (olang : Bool → Option Int → Option String → LangOut) : ArticlesRun :=
  let dtOpt : Option String := if docType = "" then none else some docType
  let reqs0 : List StatsReq :=
    [.facSum yearSel dtOpt, .langShare false yearSel dtOpt]
  let r1 := ofac yearSel dtOpt
  let r2 := olang false yearSel dtOpt
  -- Promise.all: a rejection of either initial fetch rejects the
  -- function, since the body has no catch clause.
  if r1 = .fthrow ∨ r2 = .lthrow then
    { requests := reqs0, outcome := none }
  else
    let facArr0 := facValue r1
    let lshare0 := langValue r2
    -- Fallback to the legacy articles language endpoint when the general
    -- one returned no array or an empty array; its own try/catch
    -- swallows a rejection and non-ok responses leave the value alone.
    let legacyStep : List StatsReq × LangJson :=
      if langEmpty lshare0 then
        match olang true yearSel dtOpt with
        | .lthrow => ([.langShare true yearSel dtOpt], lshare0)
        | .lnotOk => ([.langShare true yearSel dtOpt], lshare0)
        | .lok j => ([.langShare true yearSel dtOpt], j)
      else ([], lshare0)
    let lshare1 := legacyStep.2
    -- Derive the latest year from the language share and refetch the
    -- faculty summary with it; this fetch is not wrapped in try/catch,
    -- so a rejection rejects the whole function.
    if facEmpty facArr0 ∧ yearSel = none ∧ ¬ langEmpty lshare1 then
      let latest :=
        latestYear (match lshare1 with | .larr rows => rows | .lnon => [])
      if latest > 0 then
        match ofac (some latest) dtOpt with
        | .fthrow =>
          { requests := reqs0 ++ legacyStep.1 ++ [.facSum (some latest) dtOpt]
            outcome := none }
        | r4 =>
          finishArticles yearSel docType ofac
            (reqs0 ++ legacyStep.1 ++ [.facSum (some latest) dtOpt])
            (facValue r4) lshare1 (some (some latest))
      else
        finishArticles yearSel docType ofac
          (reqs0 ++ legacyStep.1) facArr0 lshare1 none
    else
      finishArticles yearSel docType ofac
        (reqs0 ++ legacyStep.1) facArr0 lshare1 (some none)

/-! ### Witness inputs -/

/-- An empty localStorage model. -/
def emptyStore : Store := fun _ => none

/-- Concrete publication row used in witnesses. -/
def pubA : Publication :=
  { id := 1, year := 2020, title := "A", citations_count := 3,
    authors := [{ id := 7, display_name := "X" }], status := "pending",
    note := some "old" }

/-- Concrete badge input used in the C2 witness: a kokson upload with a
БҒСБК document type and a scopus-looking name. -/
def badgeC2In : BadgeIn :=
  { name := some "Scopus Journal"
    docType := some " БҒСБК тізіміндегі журнал "
    uploadSource := some "KOKSON" }

/-- Second concrete publication row used in witnesses. -/
def pubB : Publication :=
  { id := 2, year := 2021, title := "B", citations_count := 0,
    authors := [], status := "pending" }

/-- Fetch oracle for the faculty summary where every request with a year
returns one row and the year-less request returns an empty array. -/
def ofacCE : Option Int → Option String → FacOut := fun y _ =>
  match y with
  | none => .fok (.farr [])
  | some _ => .fok (.farr [{ faculty := "F", count := 3 }])

/-- Fetch oracle for the language share always returning one 2024 row. -/
def olangCE : Bool → Option Int → Option String → LangOut := fun _ _ _ =>
  .lok (.larr [{ year := 2024, total := 5, ru := 2, kz := 2, en := 1,
                 ru_pct := 40, kz_pct := 40, en_pct := 20 }])

/-- Recognizes a faculty summary request. -/
def isFacSumReq : StatsReq → Bool
  | .facSum _ _ => true
  | .langShare _ _ _ => false

/-- Concrete faculty row used in the C5 witness. -/
def fRowW : FacultyRow := { faculty := "G", count := 1 }

/-- Concrete language share row used in the C5 witness. -/
def lRowW : LangRow :=
  { year := 2023, total := 1, ru := 1, kz := 0, en := 0,
    ru_pct := 100, kz_pct := 0, en_pct := 0 }

/-- Faculty oracle that always answers with one row. -/
def ofacW : Option Int → Option String → FacOut := fun _ _ =>
  .fok (.farr [fRowW])

/-- Language oracle that always answers with one row. -/
def olangW : Bool → Option Int → Option String → LangOut := fun _ _ _ =>
  .lok (.larr [lRowW])

/-- Store with a recorded activity timestamp of zero, used in the C10
witness. -/
def sExpired : Store := setItem LAST_ACTIVE_AT_KEY "0" emptyStore

/-- Concrete facet machine state used in witnesses: two fetches were
issued and only the second is still active. -/
def fmEx : FMState :=
  { comp := { items := [{ id := 5, name := "N", count := 2 }],
              error := "", loading := true }
    fetches := ["a", "ab"]
    activeId := some 1 }

/-- Payload of the newer /search request in the C6 trace. -/
def respNew : SearchResponse :=
  { meta := { page := 1, per_page := 20, total := 1, total_pages := 1 }
    items := [] }

/-- Payload of the superseded /search request in the C6 trace. -/
def respOld : SearchResponse :=
  { meta := { page := 1, per_page := 20, total := 0, total_pages := 0 }
    items := [] }

/-! ### Store lookup lemmas -/

theorem setItem_lookup_eq (k v : String) (s : Store) : setItem k v s k = some v := by
  simp [setItem]

theorem setItem_lookup_ne (k v k2 : String) (s : Store) (h : k2 ≠ k) :
    setItem k v s k2 = s k2 := by
  simp [setItem, h]

theorem removeItem_lookup_eq (k : String) (s : Store) : removeItem k s k = none := by
  simp [removeItem]

theorem removeItem_lookup_ne (k k2 : String) (s : Store) (h : k2 ≠ k) :
    removeItem k s k2 = s k2 := by
  simp [removeItem, h]

theorem ensureClientId_lookup_ne (uuid : String) (s : Store) (k : String)
    (h : k ≠ CLIENT_ID_KEY) : ensureClientId uuid s k = s k := by
  unfold ensureClientId
  cases hb : jsFalsy (s CLIENT_ID_KEY) <;> simp [hb, setItem, h]

/-! ### Claim theorems -/

/-- C1 counterexample: on the legacy badge chooser of SourceBadge.tsx the
claimed precedence fails: for an absent name and type koks the claim
gives the no-source label, the code gives КОКСОН. -/
theorem claim_C1_counterexample :
    (detectBadgeLegacy none (some "koks")).label = "КОКСОН" ∧
    labelSpec none (some "koks") = "Без источника" ∧
    ("КОКСОН" : String) ≠ "Без источника" := by
  refine ⟨rfl, rfl, by decide⟩

/-- C1 (amended): the badge chooser taking an upload source applies
exactly the claimed precedence whenever no article upload source is in
effect, and the legacy chooser applies the same precedence with a КОКСОН
branch inserted between the WoS and thesis checks. -/
theorem claim_C1_badge_precedence :
    (∀ p : BadgeIn,
        ¬ (jsToLower (jsOrEmpty p.uploadSource) = "kokson" ∨
           jsToLower (jsOrEmpty p.uploadSource) = "article") →
        (detectBadge p).label = labelSpec p.name p.type) ∧
    (∀ name type : Option String,
        (detectBadgeLegacy name type).label = labelSpecLegacy name type) := by
  constructor
  · intro p h
    unfold detectBadge labelSpec
    rw [if_neg h]
    split
    · rfl
    · split
      · rfl
      · split
        · rfl
        · split <;> rfl
  · intro name type
    unfold detectBadgeLegacy labelSpecLegacy
    split
    · rfl
    · split
      · rfl
      · split
        · rfl
        · split
          · rfl
          · split <;> rfl

/-- C1 witness: the amended theorem applied to a journal-named source
with no upload source, and to a WoS-typed source on the legacy chooser. -/
theorem claim_C1_witness :
    (¬ (jsToLower (jsOrEmpty (({ name := some "Вестник науки" } : BadgeIn)).uploadSource) = "kokson" ∨
        jsToLower (jsOrEmpty (({ name := some "Вестник науки" } : BadgeIn)).uploadSource) = "article")) ∧
    (detectBadge { name := some "Вестник науки" }).label =
      labelSpec (some "Вестник науки") none ∧
    (detectBadgeLegacy (some "Вестник") (some "wos")).label =
      labelSpecLegacy (some "Вестник") (some "wos") := by
  refine ⟨by decide, ?_, ?_⟩
  · exact claim_C1_badge_precedence.1 { name := some "Вестник науки" } (by decide)
  · exact claim_C1_badge_precedence.2 (some "Вестник") (some "wos")

/-- C2: for an article upload source (kokson or article, lowercased) the
badge label is the trimmed docType, shortened to ККСОН when its
lowercase form contains кксон or бғсбк, with the full docType kept as
the title; an empty trimmed docType yields label and title Статья.
The result never depends on the source name or type. -/
theorem claim_C2_article_badge :
    ∀ p : BadgeIn,
      (jsToLower (jsOrEmpty p.uploadSource) = "kokson" ∨
       jsToLower (jsOrEmpty p.uploadSource) = "article") →
      (detectBadge p).label =
        (if jsTrim (jsOrEmpty p.docType) ≠ "" then
           if jsIncludes (jsToLower (jsTrim (jsOrEmpty p.docType))) "кксон" ∨
              jsIncludes (jsToLower (jsTrim (jsOrEmpty p.docType))) "бғсбк"
           then "ККСОН" else jsTrim (jsOrEmpty p.docType)
         else "Статья") ∧
      (detectBadge p).title =
        some (if jsTrim (jsOrEmpty p.docType) ≠ "" then
                jsTrim (jsOrEmpty p.docType)
              else "Статья") := by
  intro p h
  unfold detectBadge
  rw [if_pos h]
  by_cases hdt : jsTrim (jsOrEmpty p.docType) = ""
  · simp [hdt]
  · simp [hdt]

/-- C2 witness: the theorem applied to a kokson upload with a БҒСБК
document type and, for contrast of name independence, a scopus name. -/
theorem claim_C2_witness :
    (jsToLower (jsOrEmpty badgeC2In.uploadSource) = "kokson" ∨
     jsToLower (jsOrEmpty badgeC2In.uploadSource) = "article") ∧
    ((detectBadge badgeC2In).label =
      (if jsTrim (jsOrEmpty badgeC2In.docType) ≠ "" then
         if jsIncludes (jsToLower (jsTrim (jsOrEmpty badgeC2In.docType))) "кксон" ∨
            jsIncludes (jsToLower (jsTrim (jsOrEmpty badgeC2In.docType))) "бғсбк"
         then "ККСОН" else jsTrim (jsOrEmpty badgeC2In.docType)
       else "Статья") ∧
     (detectBadge badgeC2In).title =
      some (if jsTrim (jsOrEmpty badgeC2In.docType) ≠ "" then
              jsTrim (jsOrEmpty badgeC2In.docType)
            else "Статья")) :=
  ⟨Or.inl (by decide), claim_C2_article_badge badgeC2In (Or.inl (by decide))⟩

/-- C8: the source badge renders the full string (title when present,
else label) when it has at most 12 characters, otherwise its first 12
characters followed by an ellipsis, and the title attribute always
carries the untruncated full string. -/
theorem claim_C8_badge_truncation :
    ∀ p : BadgeIn,
      renderSourceBadge p =
        ( if (jsOr (detectBadge p).title (detectBadge p).label).length ≤ 12 then
            jsOr (detectBadge p).title (detectBadge p).label
          else strTake (jsOr (detectBadge p).title (detectBadge p).label) 12 ++ "…"
        , jsOr (detectBadge p).title (detectBadge p).label ) := by
  intro p
  unfold renderSourceBadge
  by_cases h : (jsOr (detectBadge p).title (detectBadge p).label).length ≤ 12
  · rw [if_pos h, if_neg (by omega)]
  · rw [if_neg h, if_pos (by omega)]

/-- C7: toCSV emits the header names joined by commas, a newline, and
one line per row in input order with the escaped cells joined by commas;
a null or undefined cell becomes the empty string, and a cell is quoted
(with inner double quotes doubled) exactly when it has a double quote, a
comma or a newline. -/
theorem claim_C7_toCSV :
    ∀ (rows : List CSVRow) (headers : List String),
      toCSV rows headers =
        String.intercalate "," headers ++ "\n" ++
          String.intercalate "\n"
            (rows.map fun r =>
              String.intercalate "," (headers.map fun h => escCSV (r h))) ∧
      escCSV none = "" ∧
      ∀ s : String,
        (escCSV (some s) = "\"" ++ escQuotes s ++ "\"" ∧
          (strHasChar s '"' ∨ strHasChar s ',' ∨ strHasChar s '\n')) ∨
        (escCSV (some s) = s ∧
          ¬ (strHasChar s '"' ∨ strHasChar s ',' ∨ strHasChar s '\n')) := by
  intro rows headers
  refine ⟨rfl, rfl, ?_⟩
  intro s
  by_cases hc : (strHasChar s '"' ∨ strHasChar s ',' ∨ strHasChar s '\n')
  · exact Or.inl ⟨by simp [escCSV, if_pos hc], hc⟩
  · exact Or.inr ⟨by simp [escCSV, if_neg hc], hc⟩

/-- C4: when a facet fetch of the still-active effect fails, the
component stores an empty item list and the api_unreachable error state,
clears the loading flag, and the rendered inline banner is the
API недоступен message. -/
theorem claim_C4_facet_failure :
    ∀ (st : FacetState) (apiBase : String),
      (applyFetchOutcome true .failure st).items = [] ∧
      (applyFetchOutcome true .failure st).error = "api_unreachable" ∧
      (applyFetchOutcome true .failure st).loading = false ∧
      facetBanner apiBase (applyFetchOutcome true .failure st) =
        some ("API недоступен. Проверьте, запущен ли сервер на " ++ apiBase ++ ".") := by
  intro st apiBase
  refine ⟨rfl, rfl, rfl, ?_⟩
  simp [facetBanner, applyFetchOutcome]

/-- C6 counterexample: two successive query inputs to the facet
multi-select issue two fetches, one per input; the second input does not
replace the pending first request, so the facet fetch is not debounced. -/
theorem claim_C6_counterexample :
    (frun finit [.newQs "a", .newQs "ab"]).fetches = ["a", "ab"] ∧
    ¬ ((frun finit [.newQs "a", .newQs "ab"]).fetches.length ≤ 1) := by
  refine ⟨rfl, by decide⟩

/-- C6 (amended): the facet fetches are issued on every input change,
without debounce and without an abort controller, but the cleanup of a
superseded effect clears its active flag, so a response to a superseded
facet request changes nothing: it can never overwrite the state produced
by a newer request.  The home page /search fetch has no such flag: in a
trace where the responses of two requests arrive out of order, the
superseded request overwrites the state the newer request produced. -/
theorem claim_C6_no_stale_overwrite :
    (∀ (m : FMState) (id : Nat) (o : FetchOutcome),
        m.activeId ≠ some id →
        fstep m (.response id o) = m) ∧
    ((srun sinit [.sfetch "a", .sfetch "ab",
        .sresponse 1 respNew, .sresponse 0 respOld]).fetches = ["a", "ab"] ∧
     (srun sinit [.sfetch "a", .sfetch "ab",
        .sresponse 1 respNew, .sresponse 0 respOld]).data = some respOld ∧
     respOld ≠ respNew) := by
  refine ⟨?_, rfl, rfl, by decide⟩
  intro m id o h
  simp [fstep, if_neg h, applyFetchOutcome]

/-- C6 witness: a response to the superseded facet fetch 0 leaves the
machine with two issued fetches unchanged. -/
theorem claim_C6_witness :
    fmEx.activeId ≠ some 0 ∧
    fstep fmEx (.response 0 (.success [])) = fmEx :=
  ⟨by decide, claim_C6_no_stale_overwrite.1 fmEx 0 (.success []) (by decide)⟩

/-- C3: the statuses the client writes and filters by lie in
pending, approved, rejected; a successful approve rewrites exactly the
rows with the targeted id to status approved with a cleared note, a
successful reject rewrites them to status rejected with the entered note
(null when empty), and every other row, and every other field of the
targeted row, is unchanged (the non-targeted row is returned as is, the
targeted row only with its status and note fields replaced). -/
theorem claim_C3_moderation :
    ∀ (items : List Publication) (pubId : Int) (noteTxt : String) (i : Nat)
      (p : Publication) (f : StatusFilter),
      items.get? i = some p → f ≠ .noFilter →
      (applyApprove items pubId).length = items.length ∧
      (applyReject items pubId noteTxt).length = items.length ∧
      (applyApprove items pubId).get? i =
        some (if p.id = pubId then
                { p with status := "approved", note := none }
              else p) ∧
      (applyReject items pubId noteTxt).get? i =
        some (if p.id = pubId then
                { p with status := "rejected",
                         note := if noteTxt = "" then none else some noteTxt }
              else p) ∧
      statusFilterStr f ∈ allowedStatuses ∧
      "approved" ∈ allowedStatuses ∧ "rejected" ∈ allowedStatuses := by
  intro items pubId noteTxt i p f hp hf
  refine ⟨by simp [applyApprove], by simp [applyReject], ?_, ?_, ?_, by decide, by decide⟩
  · rw [applyApprove, List.get?_map, hp]
    rfl
  · rw [applyReject, List.get?_map, hp]
    rfl
  · cases f <;> simp_all [statusFilterStr, allowedStatuses]

/-- C3 witness: the theorem applied to a two-row list with row id 2
targeted, an empty reject note, and the pending status filter. -/
theorem claim_C3_witness :
    [pubA, pubB].get? 0 = some pubA ∧ StatusFilter.pending ≠ StatusFilter.noFilter ∧
    ((applyApprove [pubA, pubB] 2).length = [pubA, pubB].length ∧
     (applyReject [pubA, pubB] 2 "").length = [pubA, pubB].length ∧
     (applyApprove [pubA, pubB] 2).get? 0 =
       some (if pubA.id = 2 then
               { pubA with status := "approved", note := none }
             else pubA) ∧
     (applyReject [pubA, pubB] 2 "").get? 0 =
       some (if pubA.id = 2 then
               { pubA with status := "rejected",
                           note := if ("" : String) = "" then none else some "" }
             else pubA) ∧
     statusFilterStr .pending ∈ allowedStatuses ∧
     "approved" ∈ allowedStatuses ∧ "rejected" ∈ allowedStatuses) :=
  ⟨rfl, by decide, claim_C3_moderation [pubA, pubB] 2 "" 0 pubA .pending rfl (by decide)⟩

/-- C5 counterexample: with no year selected, an empty faculty summary
answer and a non-empty language share answer, fetchArticlesStats issues
a second faculty summary request (with the derived year) in the same
fetch, so a further request for the same dataset is sent without any
user or filter change. -/
theorem claim_C5_counterexample :
    ((runArticlesStats none "" ofacCE olangCE).requests.filter isFacSumReq).length = 2 ∧
    ¬ (((runArticlesStats none "" ofacCE olangCE).requests.filter isFacSumReq).length ≤ 1) := by
  refine ⟨by decide, by decide⟩

/-- C5 (amended): when both initial responses are ok and carry non-empty
arrays, fetchArticlesStats issues exactly its two initial requests and no
retry; the fallback requests (legacy language share, faculty summary
with a derived year, without the doc type, without filters) are issued
only when a response is empty, not an array, not ok, or rejected. -/
theorem claim_C5_no_retry_on_success :
    ∀ (yearSel : Option Int) (docType : String)
      (ofac : Option Int → Option String → FacOut)
      (olang : Bool → Option Int → Option String → LangOut)
      (rows1 : List FacultyRow) (rows2 : List LangRow),
      ofac yearSel (if docType = "" then none else some docType) =
        .fok (.farr rows1) →
      olang false yearSel (if docType = "" then none else some docType) =
        .lok (.larr rows2) →
      rows1 ≠ [] → rows2 ≠ [] →
      (runArticlesStats yearSel docType ofac olang).requests =
        [.facSum yearSel (if docType = "" then none else some docType),
         .langShare false yearSel (if docType = "" then none else some docType)] ∧
      (runArticlesStats yearSel docType ofac olang).outcome =
        some { facSummary := rows1, langShare := rows2,
               derivedYearUpd := some none } := by
  intro yearSel docType ofac olang rows1 rows2 h1 h2 hr1 hr2
  unfold runArticlesStats
  dsimp only
  rw [h1, h2]
  simp only [reduceCtorEq, or_self, if_false, langValue, facValue, langEmpty,
    List.isEmpty_eq_false.mpr hr2, Bool.false_eq_true, if_false, facEmpty,
    List.isEmpty_eq_false.mpr hr1, false_and, if_false]
  unfold finishArticles
  simp [facEmpty, List.isEmpty_eq_false.mpr hr1]

/-- C5 witness: the amended theorem applied to oracles that answer both
initial requests with one-row arrays: exactly the two initial requests
are issued. -/
theorem claim_C5_witness :
    ofacW none none = .fok (.farr [fRowW]) ∧
    olangW false none none = .lok (.larr [lRowW]) ∧
    ([fRowW] : List FacultyRow) ≠ [] ∧ ([lRowW] : List LangRow) ≠ [] ∧
    ((runArticlesStats none "" ofacW olangW).requests =
       [.facSum none none, .langShare false none none] ∧
     (runArticlesStats none "" ofacW olangW).outcome =
       some { facSummary := [fRowW], langShare := [lRowW],
              derivedYearUpd := some none }) :=
  ⟨rfl, rfl, by decide, by decide,
   claim_C5_no_retry_on_success none "" ofacW olangW [fRowW] [lRowW]
     rfl rfl (by decide) (by decide)⟩

/-- C9: the auth accessors round-trip through the store: after setAuth
with a real role and a non-empty token, getRole and getToken return
them; after clearAuth they return guest and the empty string; and a
stored role string outside the four real roles reads back as guest. -/
theorem claim_C9_auth_roundtrip :
    ∀ (s : Store) (r : Role) (t uuid : String) (now : Int) (v : String),
      r ≠ .guest → t ≠ "" →
      v ≠ "user" → v ≠ "admin" → v ≠ "teacher" → v ≠ "student" →
      getRole (setAuth r (some t) none now uuid s) = r ∧
      getToken (setAuth r (some t) none now uuid s) = t ∧
      getRole (clearAuth s) = .guest ∧
      getToken (clearAuth s) = "" ∧
      getRole (setItem ROLE_KEY v s) = .guest := by
  intro s r t uuid now v hr ht h1 h2 h3 h4
  have hfalsy : jsFalsy (some t) = false := by simp [jsFalsy, ht]
  have hrole : (setAuth r (some t) none now uuid s) ROLE_KEY = some (roleStr r) := by
    unfold setAuth
    dsimp only
    rw [ensureClientId_lookup_ne _ _ _ (by decide),
        setItem_lookup_ne _ _ _ _ (by decide), hfalsy,
        if_neg (by simp), setItem_lookup_ne _ _ _ _ (by decide)]
    exact setItem_lookup_eq _ _ _
  have htok : (setAuth r (some t) none now uuid s) TOKEN_KEY = some t := by
    unfold setAuth
    dsimp only
    rw [ensureClientId_lookup_ne _ _ _ (by decide),
        setItem_lookup_ne _ _ _ _ (by decide), hfalsy, if_neg (by simp)]
    exact setItem_lookup_eq _ _ _
  have hcr : clearAuth s ROLE_KEY = some "guest" := setItem_lookup_eq _ _ _
  have hct : clearAuth s TOKEN_KEY = none := by
    unfold clearAuth
    rw [setItem_lookup_ne _ _ _ _ (by decide),
        removeItem_lookup_ne _ _ _ (by decide)]
    exact removeItem_lookup_eq _ _
  refine ⟨?_, ?_, ?_, ?_, ?_⟩
  · unfold getRole
    rw [hrole]
    cases r with
    | guest => exact absurd rfl hr
    | user => rfl
    | admin => rfl
    | teacher => rfl
    | student => rfl
  · unfold getToken
    rw [htok]
    rfl
  · unfold getRole
    rw [hcr]
    rfl
  · unfold getToken
    rw [hct]
    rfl
  · unfold getRole
    rw [setItem_lookup_eq _ _ _]
    simp [Option.some.injEq, h1, h2, h3, h4]

/-- C9 witness: the theorem applied to the empty store, the admin role,
a concrete token and a stored role value outside the four real roles. -/
theorem claim_C9_witness :
    (Role.admin ≠ Role.guest) ∧ ("tok" : String) ≠ "" ∧
    ("moderator" : String) ≠ "user" ∧ ("moderator" : String) ≠ "admin" ∧
    ("moderator" : String) ≠ "teacher" ∧ ("moderator" : String) ≠ "student" ∧
    (getRole (setAuth .admin (some "tok") none 5 "u" emptyStore) = .admin ∧
     getToken (setAuth .admin (some "tok") none 5 "u" emptyStore) = "tok" ∧
     getRole (clearAuth emptyStore) = .guest ∧
     getToken (clearAuth emptyStore) = "" ∧
     getRole (setItem ROLE_KEY "moderator" emptyStore) = .guest) :=
  ⟨by decide, by decide, by decide, by decide, by decide, by decide,
   claim_C9_auth_roundtrip emptyStore .admin "tok" "u" 5 "moderator"
     (by decide) (by decide) (by decide) (by decide) (by decide) (by decide)⟩

/-- C10: isSessionExpired is true exactly when a non-empty, finite
activity timestamp is stored and the elapsed time strictly exceeds the
24 hour timeout; maybeExpireSession returns that flag and clears the
auth state (role guest, token gone) exactly in the expired case, leaving
the store unchanged otherwise. -/
theorem claim_C10_session_expiry :
    ∀ (now : Int) (s : Store),
      (isSessionExpired now s = true ↔
        ∃ v last, s LAST_ACTIVE_AT_KEY = some v ∧ v ≠ "" ∧
          jsFiniteNum v = some last ∧ now - last > INACTIVITY_TIMEOUT_MS) ∧
      INACTIVITY_TIMEOUT_MS = 24 * 60 * 60 * 1000 ∧
      maybeExpireSession now s =
        (isSessionExpired now s,
         if isSessionExpired now s then clearAuth s else s) ∧
      getRole (clearAuth s) = .guest ∧
      getToken (clearAuth s) = "" := by
  intro now s
  refine ⟨⟨?_, ?_⟩, rfl, ?_, ?_, ?_⟩
  · intro h
    unfold isSessionExpired at h
    split at h
    · exact absurd h (by simp)
    · rename_i v heq
      split at h
      · exact absurd h (by simp)
      · rename_i hve
        split at h
        · exact absurd h (by simp)
        · rename_i last hn
          exact ⟨v, last, heq, hve, hn, of_decide_eq_true h⟩
  · rintro ⟨v, last, hv, hve, hn, hgt⟩
    unfold isSessionExpired
    rw [hv]
    dsimp only
    rw [if_neg hve, hn]
    exact decide_eq_true hgt
  · by_cases hb : isSessionExpired now s
    · simp [maybeExpireSession, hb]
    · simp [maybeExpireSession, hb]
  · unfold getRole clearAuth
    rw [setItem_lookup_eq _ _ _]
    rfl
  · unfold getToken clearAuth
    rw [setItem_lookup_ne _ _ _ _ (by decide),
        removeItem_lookup_ne _ _ _ (by decide), removeItem_lookup_eq _ _]
    rfl

/-- C10 witness: the theorem applied to a store with a zero activity
timestamp and a clock one day plus past it. -/
theorem claim_C10_witness :
    (isSessionExpired 90000000 sExpired = true ↔
      ∃ v last, sExpired LAST_ACTIVE_AT_KEY = some v ∧ v ≠ "" ∧
        jsFiniteNum v = some last ∧
        90000000 - last > INACTIVITY_TIMEOUT_MS) ∧
    INACTIVITY_TIMEOUT_MS = 24 * 60 * 60 * 1000 ∧
    maybeExpireSession 90000000 sExpired =
      (isSessionExpired 90000000 sExpired,
       if isSessionExpired 90000000 sExpired then clearAuth sExpired
       else sExpired) ∧
    getRole (clearAuth sExpired) = .guest ∧
    getToken (clearAuth sExpired) = "" :=
  claim_C10_session_expiry 90000000 sExpired

end ZhScience
